import Mathlib

/-!
Shallow embedding of the Order aggregate of the orders-service repository.

Sources embedded:
  - internal/domain/entities/orders.go   (Order, OrderItem, domain methods)
  - internal/application/usecases/orders.go (TransitionOrderStatus dispatch,
    normalizePagination)
  - internal/application/dto/orders.go   (response DTO conversion)

Modelling choices:
  - Go `float64` money values are embedded as `Rat`; every price assignment in
    the source is a literal recomputation (`q * unitPrice`, a fold of
    `TotalPrice`), so the arithmetic identities under scrutiny are the ones the
    source writes syntactically.
  - Go `uint` identifiers become `Nat`, Go `int` quantities become `Int`.
  - `time.Time` instants become `Nat`; `time.Now()` becomes an explicit `now`
    argument supplied by the caller.
  - Go methods mutate the receiver through a pointer and return an `error`;
    they are embedded in state-passing style as `Order → ... → Order × Option
    OrderError`, where an early `return err` yields the unchanged receiver.
  - `type OrderStatus string` is kept as `String` so that unrecognized status
    values remain representable, as they are in Go.
-/

namespace OrdersService

/-- Order status; a string type in the Go source (`type OrderStatus string`). -/
abbrev OrderStatus := String

def OrderStatusPending : OrderStatus := "pending"

def OrderStatusConfirmed : OrderStatus := "confirmed"

def OrderStatusProcessing : OrderStatus := "processing"

def OrderStatusShipped : OrderStatus := "shipped"

def OrderStatusDelivered : OrderStatus := "delivered"

def OrderStatusCancelled : OrderStatus := "cancelled"

def OrderStatusRefunded : OrderStatus := "refunded"

/-- The distinct error values produced with `errors.New` in
entities/orders.go, plus the domain errors the use-case layer returns
(ErrInvalidOrderStatus, the unsupported-transition error). One constructor per
distinct message string. -/
inductive OrderError where
  | orderNotModifiable
  | productIDRequired
  | productSKURequired
  | productNameRequired
  | quantityMustBePositive
  | unitPriceMustBePositive
  | itemNotFoundInOrder
  | itemNotFound
  | onlyPendingCanBeConfirmed
  | cannotConfirmEmptyOrder
  | orderCannotBeCancelled
  | onlyConfirmedCanProcess
  | onlyProcessingCanShip
  | onlyShippedCanDeliver
  | onlyDeliveredCanRefund
  | customerIDRequired
  | invalidOrderStatus
  | unsupportedStatusTransition
  deriving DecidableEq

/-- OrderItem struct of entities/orders.go. -/
structure OrderItem where
  ID : Nat
  ProductID : Nat
  ProductSKU : String
  ProductName : String
  Quantity : Int
  UnitPrice : Rat
  TotalPrice : Rat
  deriving DecidableEq

/-- Order struct of entities/orders.go. -/
structure Order where
  ID : Nat
  CustomerID : Nat
  Items : List OrderItem
  TotalAmount : Rat
  Status : OrderStatus
  CreatedAt : Nat
  UpdatedAt : Nat
  deriving DecidableEq

/-- isImmutable of entities/orders.go: status is cancelled, delivered or
refunded. -/
def isImmutable (o : Order) : Bool :=
  o.Status == OrderStatusCancelled || o.Status == OrderStatusDelivered ||
    o.Status == OrderStatusRefunded

/-- strings.TrimSpace of the Go standard library: drop leading and trailing
whitespace characters, modelled over the string's character list. -/
def trimSpace (s : String) : String :=
  ((s.data.dropWhile Char.isWhitespace).reverse.dropWhile Char.isWhitespace).reverse.asString

/-- validateOrderItem of entities/orders.go: the five checks in source order,
first violation wins. -/
def validateOrderItem (productID : Nat) (productSKU productName : String)
    (quantity : Int) (unitPrice : Rat) : Option OrderError :=
  if productID == 0 then some .productIDRequired
  else if trimSpace productSKU == "" then some .productSKURequired
  else if trimSpace productName == "" then some .productNameRequired
  else if quantity ≤ 0 then some .quantityMustBePositive
  else if unitPrice ≤ 0 then some .unitPriceMustBePositive
  else none

/-- The loop body of CalculateTotal: `total := 0.0; for item { total +=
item.TotalPrice }`. -/
def totalOfItems (items : List OrderItem) : Rat :=
  items.foldl (fun acc it => acc + it.TotalPrice) 0

/-- CalculateTotal of entities/orders.go: recomputes TotalAmount from the
current items and also returns it. -/
def CalculateTotal (o : Order) : Order × Rat :=
  ({ o with TotalAmount := totalOfItems o.Items }, totalOfItems o.Items)

/-- The item-scan loop of AddItem: find the first item with the given
ProductID, add the quantity to it and recompute its TotalPrice from its stored
UnitPrice; `none` when no item matches. -/
def mergeExisting : List OrderItem → Nat → Int → Option (List OrderItem)
  | [], _, _ => none
  | it :: rest, pid, qty =>
    if it.ProductID == pid then
      some ({ it with
        Quantity := it.Quantity + qty,
        TotalPrice := ((it.Quantity + qty : Int) : Rat) * it.UnitPrice } :: rest)
    else
      match mergeExisting rest pid qty with
      | some rest2 => some (it :: rest2)
      | none => none

/-- AddItem of entities/orders.go: mutability gate, item validation, merge into
an existing item or append a new one, recompute the total, advance UpdatedAt. -/
def AddItem (o : Order) (productID : Nat) (productSKU productName : String)
    (quantity : Int) (unitPrice : Rat) (now : Nat) : Order × Option OrderError :=
  if isImmutable o then (o, some .orderNotModifiable)
  else
    match validateOrderItem productID productSKU productName quantity unitPrice with
    | some e => (o, some e)
    | none =>
      match mergeExisting o.Items productID quantity with
      | some items2 =>
        ({ (CalculateTotal { o with Items := items2 }).1 with UpdatedAt := now }, none)
      | none =>
        let newItem : OrderItem :=
          { ID := 0
            ProductID := productID
            ProductSKU := trimSpace productSKU
            ProductName := trimSpace productName
            Quantity := quantity
            UnitPrice := unitPrice
            TotalPrice := (quantity : Rat) * unitPrice }
        ({ (CalculateTotal { o with Items := o.Items ++ [newItem] }).1 with
            UpdatedAt := now }, none)

/-- The item-scan loop of RemoveItem: drop the first item with the given
ProductID, keeping the others in order; `none` when no item matches. -/
def removeFirst : List OrderItem → Nat → Option (List OrderItem)
  | [], _ => none
  | it :: rest, pid =>
    if it.ProductID == pid then some rest
    else
      match removeFirst rest pid with
      | some rest2 => some (it :: rest2)
      | none => none

/-- RemoveItem of entities/orders.go. -/
def RemoveItem (o : Order) (productID : Nat) (now : Nat) :
    Order × Option OrderError :=
  if isImmutable o then (o, some .orderNotModifiable)
  else
    match removeFirst o.Items productID with
    | some items2 =>
      ({ (CalculateTotal { o with Items := items2 }).1 with UpdatedAt := now }, none)
    | none => (o, some .itemNotFoundInOrder)

/-- The item-scan loop of UpdateItemQuantity: replace the quantity of the first
item with the given ProductID and recompute its TotalPrice from its stored
UnitPrice; `none` when no item matches. -/
def updateFirst : List OrderItem → Nat → Int → Option (List OrderItem)
  | [], _, _ => none
  | it :: rest, pid, qty =>
    if it.ProductID == pid then
      some ({ it with
        Quantity := qty
        TotalPrice := (qty : Rat) * it.UnitPrice } :: rest)
    else
      match updateFirst rest pid qty with
      | some rest2 => some (it :: rest2)
      | none => none

/-- UpdateItemQuantity of entities/orders.go: mutability gate, positivity check
before the lookup, absolute replace of the quantity. -/
def UpdateItemQuantity (o : Order) (productID : Nat) (quantity : Int)
    (now : Nat) : Order × Option OrderError :=
  if isImmutable o then (o, some .orderNotModifiable)
  else if quantity ≤ 0 then (o, some .quantityMustBePositive)
  else
    match updateFirst o.Items productID quantity with
    | some items2 =>
      ({ (CalculateTotal { o with Items := items2 }).1 with UpdatedAt := now }, none)
    | none => (o, some .itemNotFoundInOrder)

/-- ConfirmOrder of entities/orders.go: the status check runs before the
emptiness check. -/
def ConfirmOrder (o : Order) (now : Nat) : Order × Option OrderError :=
  if o.Status != OrderStatusPending then (o, some .onlyPendingCanBeConfirmed)
  else if o.Items.length == 0 then (o, some .cannotConfirmEmptyOrder)
  else ({ o with Status := OrderStatusConfirmed, UpdatedAt := now }, none)

/-- CanBeCancelled of entities/orders.go. -/
def CanBeCancelled (o : Order) : Bool :=
  o.Status == OrderStatusPending || o.Status == OrderStatusConfirmed ||
    o.Status == OrderStatusProcessing

/-- CancelOrder of entities/orders.go. -/
def CancelOrder (o : Order) (now : Nat) : Order × Option OrderError :=
  if !CanBeCancelled o then (o, some .orderCannotBeCancelled)
  else ({ o with Status := OrderStatusCancelled, UpdatedAt := now }, none)

/-- TransitionToProcessing of entities/orders.go. -/
def TransitionToProcessing (o : Order) (now : Nat) : Order × Option OrderError :=
  if o.Status != OrderStatusConfirmed then (o, some .onlyConfirmedCanProcess)
  else ({ o with Status := OrderStatusProcessing, UpdatedAt := now }, none)

/-- TransitionToShipped of entities/orders.go. -/
def TransitionToShipped (o : Order) (now : Nat) : Order × Option OrderError :=
  if o.Status != OrderStatusProcessing then (o, some .onlyProcessingCanShip)
  else ({ o with Status := OrderStatusShipped, UpdatedAt := now }, none)

/-- TransitionToDelivered of entities/orders.go. -/
def TransitionToDelivered (o : Order) (now : Nat) : Order × Option OrderError :=
  if o.Status != OrderStatusShipped then (o, some .onlyShippedCanDeliver)
  else ({ o with Status := OrderStatusDelivered, UpdatedAt := now }, none)

/-- TransitionToRefunded of entities/orders.go. -/
def TransitionToRefunded (o : Order) (now : Nat) : Order × Option OrderError :=
  if o.Status != OrderStatusDelivered then (o, some .onlyDeliveredCanRefund)
  else ({ o with Status := OrderStatusRefunded, UpdatedAt := now }, none)

/-- NewOrder factory of entities/orders.go. -/
def NewOrder (customerID : Nat) (now : Nat) : Except OrderError Order :=
  if customerID == 0 then .error .customerIDRequired
  else
    .ok
      { ID := 0
        CustomerID := customerID
        Items := []
        TotalAmount := 0
        Status := OrderStatusPending
        CreatedAt := now
        UpdatedAt := now }

/-- GetItemCount of entities/orders.go. -/
def GetItemCount (o : Order) : Int :=
  (o.Items.length : Int)

/-- GetTotalQuantity of entities/orders.go. -/
def GetTotalQuantity (o : Order) : Int :=
  o.Items.foldl (fun acc it => acc + it.Quantity) 0

/-- ValidateOrderStatus of entities/orders.go: membership in the seven known
status strings. -/
def ValidateOrderStatus (status : OrderStatus) : Option OrderError :=
  if status == OrderStatusPending || status == OrderStatusConfirmed ||
      status == OrderStatusProcessing || status == OrderStatusShipped ||
      status == OrderStatusDelivered || status == OrderStatusCancelled ||
      status == OrderStatusRefunded then
    none
  else some .invalidOrderStatus

/-- The dispatch core of TransitionOrderStatus in usecases/orders.go (the
repository fetch and store around it are omitted): validate the target status,
then switch on it; the default branch (reached only by `pending`, since any
unknown string already failed validation) reports an unsupported transition. -/
def TransitionOrderStatus (o : Order) (targetStatus : OrderStatus) (now : Nat) :
    Order × Option OrderError :=
  match ValidateOrderStatus targetStatus with
  | some _ => (o, some .invalidOrderStatus)
  | none =>
    if targetStatus == OrderStatusConfirmed then ConfirmOrder o now
    else if targetStatus == OrderStatusProcessing then TransitionToProcessing o now
    else if targetStatus == OrderStatusShipped then TransitionToShipped o now
    else if targetStatus == OrderStatusDelivered then TransitionToDelivered o now
    else if targetStatus == OrderStatusCancelled then CancelOrder o now
    else if targetStatus == OrderStatusRefunded then TransitionToRefunded o now
    else (o, some .unsupportedStatusTransition)

/-- normalizePagination of usecases/orders.go. -/
def normalizePagination (page pageSize : Int) : Int × Int :=
  let page2 := if page < 0 then 0 else page
  let pageSize2 := if pageSize < 1 || pageSize > 100 then 10 else pageSize
  (page2, pageSize2)

/-- OrderItemResponseDTO of dto/orders.go. -/
structure OrderItemResponseDTO where
  ID : Nat
  ProductID : Nat
  ProductSKU : String
  ProductName : String
  Quantity : Int
  UnitPrice : Rat
  TotalPrice : Rat
  deriving DecidableEq

/-- OrderResponseDTO of dto/orders.go. -/
structure OrderResponseDTO where
  ID : Nat
  CustomerID : Nat
  Items : List OrderItemResponseDTO
  ItemCount : Int
  TotalItems : Int
  TotalAmount : Rat
  Status : OrderStatus
  CreatedAt : Nat
  UpdatedAt : Nat
  deriving DecidableEq

/-- OrderItemToResponseDTO of dto/orders.go. -/
def OrderItemToResponseDTO (item : OrderItem) : OrderItemResponseDTO :=
  { ID := item.ID
    ProductID := item.ProductID
    ProductSKU := item.ProductSKU
    ProductName := item.ProductName
    Quantity := item.Quantity
    UnitPrice := item.UnitPrice
    TotalPrice := item.TotalPrice }

/-- OrderItemsToResponseDTOs of dto/orders.go: the append loop maps the
conversion over the items in order. -/
def OrderItemsToResponseDTOs (items : List OrderItem) : List OrderItemResponseDTO :=
  items.map OrderItemToResponseDTO

/-- OrderToResponseDTO of dto/orders.go. -/
def OrderToResponseDTO (o : Order) : OrderResponseDTO :=
  { ID := o.ID
    CustomerID := o.CustomerID
    Items := OrderItemsToResponseDTOs o.Items
    ItemCount := GetItemCount o
    TotalItems := GetTotalQuantity o
    TotalAmount := o.TotalAmount
    Status := o.Status
    CreatedAt := o.CreatedAt
    UpdatedAt := o.UpdatedAt }

/-- Modelled from the spec: the repository has no ResponseDTO-to-entity
conversion for order items (only entity-to-DTO exists in dto/orders.go); §6 of
the spec calls the presentation mapping mechanical and requires every §3 field
to round-trip, so the inverse is the field-by-field copy. -/
def OrderItemFromResponseDTO (d : OrderItemResponseDTO) : OrderItem :=
  { ID := d.ID
    ProductID := d.ProductID
    ProductSKU := d.ProductSKU
    ProductName := d.ProductName
    Quantity := d.Quantity
    UnitPrice := d.UnitPrice
    TotalPrice := d.TotalPrice }

/-- Modelled from the spec: the repository has no ResponseDTO-to-entity
conversion for orders; §6 requires every §3 field (identity, customerID,
items, totalAmount, status, timestamps) to round-trip, so the inverse copies
those fields back and drops the derived counts. -/
def OrderFromResponseDTO (d : OrderResponseDTO) : Order :=
  { ID := d.ID
    CustomerID := d.CustomerID
    Items := d.Items.map OrderItemFromResponseDTO
    TotalAmount := d.TotalAmount
    Status := d.Status
    CreatedAt := d.CreatedAt
    UpdatedAt := d.UpdatedAt }

/-- The aggregate operations of entities/orders.go, with each call's arguments
(the `now` field stands for the `time.Now()` observed during the call). -/
inductive OrderOp where
  | addItem (productID : Nat) (productSKU productName : String)
      (quantity : Int) (unitPrice : Rat) (now : Nat)
  | removeItem (productID : Nat) (now : Nat)
  | updateItemQuantity (productID : Nat) (quantity : Int) (now : Nat)
  | calculateTotal
  | confirmOrder (now : Nat)
  | cancelOrder (now : Nat)
  | transitionToProcessing (now : Nat)
  | transitionToShipped (now : Nat)
  | transitionToDelivered (now : Nat)
  | transitionToRefunded (now : Nat)

/-- Apply one aggregate operation; the first component is the order as the Go
receiver stands after the call (unchanged when the call returned an error). -/
def applyOp (o : Order) : OrderOp → Order × Option OrderError
  | .addItem pid sku name qty price now => AddItem o pid sku name qty price now
  | .removeItem pid now => RemoveItem o pid now
  | .updateItemQuantity pid qty now => UpdateItemQuantity o pid qty now
  | .calculateTotal => ((CalculateTotal o).1, none)
  | .confirmOrder now => ConfirmOrder o now
  | .cancelOrder now => CancelOrder o now
  | .transitionToProcessing now => TransitionToProcessing o now
  | .transitionToShipped now => TransitionToShipped o now
  | .transitionToDelivered now => TransitionToDelivered o now
  | .transitionToRefunded now => TransitionToRefunded o now

/-- Run a sequence of aggregate operations from a starting order. -/
def applyOps (o : Order) (ops : List OrderOp) : Order :=
  ops.foldl (fun acc op => (applyOp acc op).1) o

/-- An item's TotalPrice is its quantity times its unit price. -/
def itemPriceConsistent (it : OrderItem) : Prop :=
  it.TotalPrice = (it.Quantity : Rat) * it.UnitPrice

/-- The derived-value invariant of the aggregate: TotalAmount is the sum of
the items' TotalPrice, and every item's TotalPrice is quantity times unit
price. -/
def orderTotalsInvariant (o : Order) : Prop :=
  o.TotalAmount = totalOfItems o.Items ∧ ∀ it ∈ o.Items, itemPriceConsistent it

instance (it : OrderItem) : Decidable (itemPriceConsistent it) := by
  unfold itemPriceConsistent
  infer_instance

instance (o : Order) : Decidable (orderTotalsInvariant o) := by
  unfold orderTotalsInvariant
  infer_instance

/-- The item produced by AddItem's merge branch: same item with the quantity
incremented and TotalPrice recomputed from the stored UnitPrice. -/
def mergedItem (old : OrderItem) (qty : Int) : OrderItem :=
  { old with
    Quantity := old.Quantity + qty
    TotalPrice := ((old.Quantity + qty : Int) : Rat) * old.UnitPrice }

/-- A pending order with one item (ProductID 1, quantity 2, unit price 10),
used to instantiate hypotheses of the universally quantified theorems. -/
def cDemoItem : OrderItem :=
  { ID := 0
    ProductID := 1
    ProductSKU := "P-1"
    ProductName := "Widget"
    Quantity := 2
    UnitPrice := 10
    TotalPrice := 20 }

def cDemoOrder : Order :=
  { ID := 1
    CustomerID := 1
    Items := [cDemoItem]
    TotalAmount := 20
    Status := OrderStatusPending
    CreatedAt := 0
    UpdatedAt := 0 }

/-- An empty pending order. -/
def cEmptyPending : Order :=
  { ID := 2
    CustomerID := 1
    Items := []
    TotalAmount := 0
    Status := OrderStatusPending
    CreatedAt := 0
    UpdatedAt := 0 }

/-- An empty order whose status is confirmed (not pending). -/
def cEmptyConfirmed : Order :=
  { ID := 3
    CustomerID := 1
    Items := []
    TotalAmount := 0
    Status := OrderStatusConfirmed
    CreatedAt := 0
    UpdatedAt := 0 }

/-- A cancelled (immutable) order with one item. -/
def cCancelledOrder : Order :=
  { ID := 4
    CustomerID := 1
    Items := [cDemoItem]
    TotalAmount := 20
    Status := OrderStatusCancelled
    CreatedAt := 0
    UpdatedAt := 0 }

/-- The order produced by `NewOrder 1 0`. -/
def cNewOrder : Order :=
  { ID := 0
    CustomerID := 1
    Items := []
    TotalAmount := 0
    Status := OrderStatusPending
    CreatedAt := 0
    UpdatedAt := 0 }

/-- C9: normalizePagination keeps a non-negative page and resets a negative
one to 0; it keeps a pageSize within [1, 100] and resets any other pageSize
(including one above 100, which is not clamped to 100) to the default 10, so
the normalized pair always has page ≥ 0 and pageSize in [1, 100]. -/
theorem normalizePagination_spec (page pageSize : Int) :
    (0 ≤ page → (normalizePagination page pageSize).1 = page) ∧
    (page < 0 → (normalizePagination page pageSize).1 = 0) ∧
    (1 ≤ pageSize → pageSize ≤ 100 → (normalizePagination page pageSize).2 = pageSize) ∧
    (pageSize < 1 ∨ 100 < pageSize → (normalizePagination page pageSize).2 = 10) ∧
    (100 < pageSize → (normalizePagination page pageSize).2 ≠ 100) ∧
    0 ≤ (normalizePagination page pageSize).1 ∧
    1 ≤ (normalizePagination page pageSize).2 ∧
    (normalizePagination page pageSize).2 ≤ 100 := by
  unfold normalizePagination
  refine ⟨?_, ?_, ?_, ?_, ?_, ?_, ?_, ?_⟩ <;>
    simp only [] <;> split_ifs <;> simp_all <;> omega

/-- Witness for C9 at page = -5, pageSize = 150: the page is reset to 0 and
the oversized pageSize is reset to 10, not clamped to 100. -/
theorem normalizePagination_spec_witness :
    (-5 : Int) < 0 ∧ (100 : Int) < 150 ∧
    (normalizePagination (-5) 150).1 = 0 ∧
    (normalizePagination (-5) 150).2 = 10 ∧
    (normalizePagination (-5) 150).2 ≠ 100 :=
  ⟨by decide, by decide,
    (normalizePagination_spec (-5) 150).2.1 (by decide),
    (normalizePagination_spec (-5) 150).2.2.2.1 (Or.inr (by decide)),
    (normalizePagination_spec (-5) 150).2.2.2.2.1 (by decide)⟩

/-- C8: converting an order to its response DTO and back (the inverse being
the mechanical field-by-field copy the spec prescribes) reproduces the order:
identity, customerID, items in order, totalAmount, status and timestamps. -/
theorem order_response_roundtrip (o : Order) :
    OrderFromResponseDTO (OrderToResponseDTO o) = o := by
  have h2 : ∀ items : List OrderItem,
      (OrderItemsToResponseDTOs items).map OrderItemFromResponseDTO = items := by
    intro items
    induction items with
    | nil => rfl
    | cons a rest ih =>
      simp only [OrderItemsToResponseDTOs, List.map_cons] at ih ⊢
      rw [ih]
      rfl
  cases o with
  | mk id cid items total status ca ua =>
    simp [OrderFromResponseDTO, OrderToResponseDTO, h2]

/-- C3 counterexample: an empty order whose status is confirmed fails
ConfirmOrder with the wrong-status error, not the empty-order error, because
the status check runs first. -/
theorem confirmOrder_empty_counterexample :
    cEmptyConfirmed.Items = [] ∧
    cEmptyConfirmed.Status ≠ OrderStatusPending ∧
    ConfirmOrder cEmptyConfirmed 1 =
      (cEmptyConfirmed, some OrderError.onlyPendingCanBeConfirmed) ∧
    OrderError.onlyPendingCanBeConfirmed ≠ OrderError.cannotConfirmEmptyOrder := by
  decide

/-- C3 amended: ConfirmOrder on an order with zero items always fails, but the
reported error depends on the status: the empty-order error when the status is
pending, the wrong-status error otherwise (the status check runs first). -/
theorem confirmOrder_empty_spec (o : Order) (now : Nat) (hempty : o.Items = []) :
    (o.Status = OrderStatusPending →
      ConfirmOrder o now = (o, some OrderError.cannotConfirmEmptyOrder)) ∧
    (o.Status ≠ OrderStatusPending →
      ConfirmOrder o now = (o, some OrderError.onlyPendingCanBeConfirmed)) := by
  constructor
  · intro hp
    simp [ConfirmOrder, hp, hempty]
  · intro hp
    simp [ConfirmOrder, hp]

/-- Witness for C3's amended theorem at a concrete empty pending order. -/
theorem confirmOrder_empty_spec_witness :
    ConfirmOrder cEmptyPending 1 = (cEmptyPending, some OrderError.cannotConfirmEmptyOrder) :=
  (confirmOrder_empty_spec cEmptyPending 1 rfl).1 rfl

/-- C6: CancelOrder succeeds exactly when the status is pending, confirmed or
processing, setting the status to cancelled and the update instant to the
call's now and touching nothing else; for shipped, delivered, cancelled and
refunded it fails with the cannot-be-cancelled error and leaves the order
unchanged. -/
theorem cancelOrder_spec (o : Order) (now : Nat) :
    ((o.Status = OrderStatusPending ∨ o.Status = OrderStatusConfirmed ∨
        o.Status = OrderStatusProcessing) →
      CancelOrder o now =
        ({ o with Status := OrderStatusCancelled, UpdatedAt := now }, none)) ∧
    ((o.Status = OrderStatusShipped ∨ o.Status = OrderStatusDelivered ∨
        o.Status = OrderStatusCancelled ∨ o.Status = OrderStatusRefunded) →
      CancelOrder o now = (o, some OrderError.orderCannotBeCancelled)) ∧
    ((CancelOrder o now).2 = none ↔
      (o.Status = OrderStatusPending ∨ o.Status = OrderStatusConfirmed ∨
        o.Status = OrderStatusProcessing)) := by
  refine ⟨?_, ?_, ?_⟩
  · intro h
    have hc : CanBeCancelled o = true := by
      unfold CanBeCancelled
      rcases h with h | h | h <;> simp [h]
    simp [CancelOrder, hc]
  · intro h
    have hc : CanBeCancelled o = false := by
      unfold CanBeCancelled
      rcases h with h | h | h | h <;>
        simp [h, OrderStatusShipped, OrderStatusDelivered, OrderStatusCancelled,
          OrderStatusRefunded, OrderStatusPending, OrderStatusConfirmed,
          OrderStatusProcessing]
    simp [CancelOrder, hc]
  · unfold CancelOrder CanBeCancelled
    split_ifs with h <;> simp_all <;> tauto

/-- Witness for C6 at a concrete pending order and at a concrete cancelled
order. -/
theorem cancelOrder_spec_witness :
    CancelOrder cEmptyPending 9 =
      ({ cEmptyPending with Status := OrderStatusCancelled, UpdatedAt := 9 }, none) ∧
    CancelOrder cCancelledOrder 9 =
      (cCancelledOrder, some OrderError.orderCannotBeCancelled) :=
  ⟨(cancelOrder_spec cEmptyPending 9).1 (Or.inl rfl),
    (cancelOrder_spec cCancelledOrder 9).2.1 (Or.inr (Or.inr (Or.inl rfl)))⟩

/-- C7 counterexample: the unrecognized target status string `bogus` is
rejected by the dispatcher with the invalid-order-status error, not as an
unsupported transition as the claim states, because validation runs before the
dispatch switch. -/
theorem transitionOrderStatus_counterexample :
    TransitionOrderStatus cEmptyPending ("bogus") 1 =
      (cEmptyPending, some OrderError.invalidOrderStatus) ∧
    OrderError.invalidOrderStatus ≠ OrderError.unsupportedStatusTransition := by
  decide

/-- C7 amended: the dispatcher validates the target against the known status
set and fails with invalid-order-status for any target outside it (an
unrecognized value therefore never reaches the dispatch switch); the target
pending is the one value rejected as an unsupported transition; every other
valid target routes to its matching transition function. -/
theorem transitionOrderStatus_spec (o : Order) (target : OrderStatus) (now : Nat) :
    (¬(target = OrderStatusPending ∨ target = OrderStatusConfirmed ∨
        target = OrderStatusProcessing ∨ target = OrderStatusShipped ∨
        target = OrderStatusDelivered ∨ target = OrderStatusCancelled ∨
        target = OrderStatusRefunded) →
      TransitionOrderStatus o target now = (o, some OrderError.invalidOrderStatus)) ∧
    TransitionOrderStatus o OrderStatusPending now =
      (o, some OrderError.unsupportedStatusTransition) ∧
    TransitionOrderStatus o OrderStatusConfirmed now = ConfirmOrder o now ∧
    TransitionOrderStatus o OrderStatusProcessing now = TransitionToProcessing o now ∧
    TransitionOrderStatus o OrderStatusShipped now = TransitionToShipped o now ∧
    TransitionOrderStatus o OrderStatusDelivered now = TransitionToDelivered o now ∧
    TransitionOrderStatus o OrderStatusCancelled now = CancelOrder o now ∧
    TransitionOrderStatus o OrderStatusRefunded now = TransitionToRefunded o now := by
  refine ⟨?_, rfl, rfl, rfl, rfl, rfl, rfl, rfl⟩
  intro h
  push_neg at h
  obtain ⟨h1, h2, h3, h4, h5, h6, h7⟩ := h
  have hv : ValidateOrderStatus target = some OrderError.invalidOrderStatus := by
    unfold ValidateOrderStatus
    simp [h1, h2, h3, h4, h5, h6, h7]
  unfold TransitionOrderStatus
  simp [hv]

/-- Witness for C7's amended theorem: the unknown target `bogus` fails with
invalid-order-status, and the pending target is rejected as unsupported. -/
theorem transitionOrderStatus_spec_witness :
    TransitionOrderStatus cDemoOrder ("bogus") 4 =
      (cDemoOrder, some OrderError.invalidOrderStatus) ∧
    TransitionOrderStatus cDemoOrder OrderStatusPending 4 =
      (cDemoOrder, some OrderError.unsupportedStatusTransition) :=
  ⟨(transitionOrderStatus_spec cDemoOrder ("bogus") 4).1 (by decide),
    (transitionOrderStatus_spec cDemoOrder OrderStatusPending 4).2.1⟩

theorem mergeExisting_append (pre post : List OrderItem) (old : OrderItem)
    (pid : Nat) (qty : Int)
    (hpre : ∀ it ∈ pre, it.ProductID ≠ pid) (hold : old.ProductID = pid) :
    mergeExisting (pre ++ old :: post) pid qty =
      some (pre ++ mergedItem old qty :: post) := by
  induction pre with
  | nil => simp [mergeExisting, hold, mergedItem]
  | cons it rest ih =>
    have h1 : it.ProductID ≠ pid := hpre it (List.mem_cons_self it rest)
    have ih2 := ih fun x hx => hpre x (List.mem_cons_of_mem it hx)
    simp [mergeExisting, h1, ih2]

theorem AddItem_merge_eq (o : Order) (pid : Nat) (sku name : String)
    (qty : Int) (price : Rat) (now : Nat)
    (pre post : List OrderItem) (old : OrderItem)
    (hmut : isImmutable o = false)
    (hval : validateOrderItem pid sku name qty price = none)
    (hpre : ∀ it ∈ pre, it.ProductID ≠ pid)
    (hold : old.ProductID = pid)
    (hitems : o.Items = pre ++ old :: post) :
    AddItem o pid sku name qty price now =
      ({ o with
          Items := pre ++ mergedItem old qty :: post
          TotalAmount := totalOfItems (pre ++ mergedItem old qty :: post)
          UpdatedAt := now }, none) := by
  unfold AddItem
  rw [hitems]
  simp [hmut, hval, mergeExisting_append pre post old pid qty hpre hold, CalculateTotal]

/-- C2: a successful AddItem for a productID already present merges into the
existing entry: its quantity is incremented by the supplied quantity (not
replaced), its TotalPrice is recomputed, the item count does not grow, and
TotalAmount is recomputed over the updated items. -/
theorem addItem_merge_spec (o : Order) (pid : Nat) (sku name : String)
    (qty : Int) (price : Rat) (now : Nat)
    (pre post : List OrderItem) (old : OrderItem)
    (hmut : isImmutable o = false)
    (hval : validateOrderItem pid sku name qty price = none)
    (hpre : ∀ it ∈ pre, it.ProductID ≠ pid)
    (hold : old.ProductID = pid)
    (hitems : o.Items = pre ++ old :: post) :
    AddItem o pid sku name qty price now =
      ({ o with
          Items := pre ++ mergedItem old qty :: post
          TotalAmount := totalOfItems (pre ++ mergedItem old qty :: post)
          UpdatedAt := now }, none) ∧
    (mergedItem old qty).Quantity = old.Quantity + qty ∧
    (mergedItem old qty).TotalPrice = ((old.Quantity + qty : Int) : Rat) * old.UnitPrice ∧
    (pre ++ mergedItem old qty :: post).length = o.Items.length :=
  ⟨AddItem_merge_eq o pid sku name qty price now pre post old hmut hval hpre hold hitems,
    rfl, rfl, by simp [hitems]⟩

/-- Witness for C2, reproducing the spec's example: adding (id 1, qty 2,
price 10) and then (id 1, qty 3, price 10) yields exactly one item with
quantity 5 and a TotalAmount of 50. -/
theorem addItem_merge_spec_witness :
    AddItem cDemoOrder 1 ("P-1") ("Widget") 3 10 7 =
      ({ cDemoOrder with
          Items := [{ cDemoItem with Quantity := 5, TotalPrice := 50 }]
          TotalAmount := 50
          UpdatedAt := 7 }, none) := by
  have h := (addItem_merge_spec cDemoOrder 1 ("P-1") ("Widget") 3 10 7 [] [] cDemoItem
    (by decide) (by decide) (by decide) (by decide) rfl).1
  refine h.trans ?_
  simp [cDemoOrder, cDemoItem, mergedItem, totalOfItems]
  norm_num

/-- C10: AddItem's merge branch ignores the newly supplied sku, name and unit
price: the result is the same whatever valid sku, name and price are passed,
the merged item keeps the stored ProductSKU, ProductName and UnitPrice, and
its TotalPrice is recomputed from the stored UnitPrice. -/
theorem addItem_merge_frame (o : Order) (pid : Nat) (sku1 name1 sku2 name2 : String)
    (qty : Int) (price1 price2 : Rat) (now : Nat)
    (pre post : List OrderItem) (old : OrderItem)
    (hmut : isImmutable o = false)
    (hval1 : validateOrderItem pid sku1 name1 qty price1 = none)
    (hval2 : validateOrderItem pid sku2 name2 qty price2 = none)
    (hpre : ∀ it ∈ pre, it.ProductID ≠ pid)
    (hold : old.ProductID = pid)
    (hitems : o.Items = pre ++ old :: post) :
    AddItem o pid sku1 name1 qty price1 now = AddItem o pid sku2 name2 qty price2 now ∧
    (mergedItem old qty).ProductSKU = old.ProductSKU ∧
    (mergedItem old qty).ProductName = old.ProductName ∧
    (mergedItem old qty).UnitPrice = old.UnitPrice ∧
    (mergedItem old qty).TotalPrice = ((old.Quantity + qty : Int) : Rat) * old.UnitPrice ∧
    (AddItem o pid sku1 name1 qty price1 now).1.Items = pre ++ mergedItem old qty :: post := by
  have h1 := AddItem_merge_eq o pid sku1 name1 qty price1 now pre post old hmut hval1 hpre hold hitems
  have h2 := AddItem_merge_eq o pid sku2 name2 qty price2 now pre post old hmut hval2 hpre hold hitems
  exact ⟨h1.trans h2.symm, rfl, rfl, rfl, rfl, by rw [h1]⟩

/-- Witness for C10: merging with a different sku, name and unit price (99)
produces exactly the same order as merging with the stored ones. -/
theorem addItem_merge_frame_witness :
    AddItem cDemoOrder 1 ("OTHER-SKU") ("Other") 3 99 7 =
      AddItem cDemoOrder 1 ("P-1") ("Widget") 3 10 7 :=
  (addItem_merge_frame cDemoOrder 1 ("OTHER-SKU") ("Other") ("P-1") ("Widget") 3 99 10 7
    [] [] cDemoItem (by decide) (by decide) (by decide) (by decide) (by decide) rfl).1

theorem validateOrderItem_ne_notModifiable (pid : Nat) (sku name : String)
    (qty : Int) (price : Rat) :
    validateOrderItem pid sku name qty price ≠ some OrderError.orderNotModifiable := by
  unfold validateOrderItem
  split_ifs <;> simp

/-- C4: AddItem, RemoveItem and UpdateItemQuantity fail with the
order-not-modifiable error exactly when the order is immutable, i.e. its
status is cancelled, delivered or refunded; on an immutable order this holds
whatever the item arguments are, and a mutable order never reports that
error. -/
theorem mutation_requires_mutable (o : Order) (pid : Nat) (sku name : String)
    (qty : Int) (price : Rat) (now : Nat) :
    ((AddItem o pid sku name qty price now).2 = some OrderError.orderNotModifiable ↔
      isImmutable o = true) ∧
    ((RemoveItem o pid now).2 = some OrderError.orderNotModifiable ↔
      isImmutable o = true) ∧
    ((UpdateItemQuantity o pid qty now).2 = some OrderError.orderNotModifiable ↔
      isImmutable o = true) ∧
    (isImmutable o = true ↔
      (o.Status = OrderStatusCancelled ∨ o.Status = OrderStatusDelivered ∨
        o.Status = OrderStatusRefunded)) := by
  refine ⟨?_, ?_, ?_, ?_⟩
  · cases himm : isImmutable o
    · cases hv : validateOrderItem pid sku name qty price with
      | some e =>
        have hne : e ≠ OrderError.orderNotModifiable := by
          intro he
          exact validateOrderItem_ne_notModifiable pid sku name qty price (he ▸ hv)
        simp [AddItem, himm, hv, hne]
      | none =>
        cases hm : mergeExisting o.Items pid qty with
        | some items2 => simp [AddItem, himm, hv, hm]
        | none => simp [AddItem, himm, hv, hm]
    · simp [AddItem, himm]
  · cases himm : isImmutable o
    · cases hr : removeFirst o.Items pid with
      | some items2 => simp [RemoveItem, himm, hr]
      | none => simp [RemoveItem, himm, hr]
    · simp [RemoveItem, himm]
  · cases himm : isImmutable o
    · by_cases hq : qty ≤ 0
      · simp [UpdateItemQuantity, himm, hq]
      · cases hu : updateFirst o.Items pid qty with
        | some items2 => simp [UpdateItemQuantity, himm, hq, hu]
        | none => simp [UpdateItemQuantity, himm, hq, hu]
    · simp [UpdateItemQuantity, himm]
  · simp [isImmutable]
    tauto

/-- C5: every aggregate operation that returns an error leaves the order
exactly as it was: all precondition and validation checks run before any field
is written, so a failed AddItem, RemoveItem, UpdateItemQuantity, ConfirmOrder,
CancelOrder or TransitionTo* call changes no field. -/
theorem failed_op_unchanged (o : Order) (op : OrderOp)
    (hfail : (applyOp o op).2 ≠ none) : (applyOp o op).1 = o := by
  cases op with
  | addItem pid sku name qty price now =>
    cases himm : isImmutable o with
    | true => simp [applyOp, AddItem, himm]
    | false =>
      cases hv : validateOrderItem pid sku name qty price with
      | some e => simp [applyOp, AddItem, himm, hv]
      | none =>
        cases hm : mergeExisting o.Items pid qty with
        | some items2 => simp [applyOp, AddItem, himm, hv, hm] at hfail
        | none => simp [applyOp, AddItem, himm, hv, hm] at hfail
  | removeItem pid now =>
    cases himm : isImmutable o with
    | true => simp [applyOp, RemoveItem, himm]
    | false =>
      cases hr : removeFirst o.Items pid with
      | some items2 => simp [applyOp, RemoveItem, himm, hr] at hfail
      | none => simp [applyOp, RemoveItem, himm, hr]
  | updateItemQuantity pid qty now =>
    cases himm : isImmutable o with
    | true => simp [applyOp, UpdateItemQuantity, himm]
    | false =>
      by_cases hq : qty ≤ 0
      · simp [applyOp, UpdateItemQuantity, himm, hq]
      · cases hu : updateFirst o.Items pid qty with
        | some items2 => simp [applyOp, UpdateItemQuantity, himm, hq, hu] at hfail
        | none => simp [applyOp, UpdateItemQuantity, himm, hq, hu]
  | calculateTotal => simp [applyOp] at hfail
  | confirmOrder now =>
    cases hs : o.Status != OrderStatusPending with
    | true => simp [applyOp, ConfirmOrder, hs]
    | false =>
      cases he : o.Items.length == 0 with
      | true => simp [applyOp, ConfirmOrder, hs, he]
      | false => simp [applyOp, ConfirmOrder, hs, he] at hfail
  | cancelOrder now =>
    cases hc : CanBeCancelled o with
    | true => simp [applyOp, CancelOrder, hc] at hfail
    | false => simp [applyOp, CancelOrder, hc]
  | transitionToProcessing now =>
    cases hs : o.Status != OrderStatusConfirmed with
    | true => simp [applyOp, TransitionToProcessing, hs]
    | false => simp [applyOp, TransitionToProcessing, hs] at hfail
  | transitionToShipped now =>
    cases hs : o.Status != OrderStatusProcessing with
    | true => simp [applyOp, TransitionToShipped, hs]
    | false => simp [applyOp, TransitionToShipped, hs] at hfail
  | transitionToDelivered now =>
    cases hs : o.Status != OrderStatusShipped with
    | true => simp [applyOp, TransitionToDelivered, hs]
    | false => simp [applyOp, TransitionToDelivered, hs] at hfail
  | transitionToRefunded now =>
    cases hs : o.Status != OrderStatusDelivered with
    | true => simp [applyOp, TransitionToRefunded, hs]
    | false => simp [applyOp, TransitionToRefunded, hs] at hfail

/-- Witness for C5: an AddItem call on a cancelled order fails and leaves the
order exactly as it was. -/
theorem failed_op_unchanged_witness :
    (applyOp cCancelledOrder (OrderOp.addItem 1 ("P-1") ("Widget") 1 1 9)).1 =
      cCancelledOrder :=
  failed_op_unchanged cCancelledOrder (OrderOp.addItem 1 ("P-1") ("Widget") 1 1 9)
    (by decide)

theorem mergeExisting_consistent (items : List OrderItem) (pid : Nat) (qty : Int)
    (items2 : List OrderItem) (h : mergeExisting items pid qty = some items2)
    (hc : ∀ it ∈ items, itemPriceConsistent it) :
    ∀ it ∈ items2, itemPriceConsistent it := by
  induction items generalizing items2 with
  | nil => simp [mergeExisting] at h
  | cons a rest ih =>
    by_cases hpid : (a.ProductID == pid) = true
    · simp only [mergeExisting, hpid, if_true, Option.some.injEq] at h
      subst h
      intro it hit
      rcases List.mem_cons.mp hit with h1 | h2
      · subst h1
        rfl
      · exact hc it (List.mem_cons_of_mem a h2)
    · cases hm : mergeExisting rest pid qty with
      | some rest2 =>
        simp only [mergeExisting, hpid, Bool.false_eq_true, if_false, hm, Option.some.injEq] at h
        subst h
        intro it hit
        rcases List.mem_cons.mp hit with h1 | h2
        · subst h1
          exact hc it (List.mem_cons_self it rest)
        · exact ih rest2 hm (fun x hx => hc x (List.mem_cons_of_mem a hx)) it h2
      | none => simp [mergeExisting, hpid, hm] at h

theorem removeFirst_mem (items : List OrderItem) (pid : Nat)
    (items2 : List OrderItem) (h : removeFirst items pid = some items2) :
    ∀ it ∈ items2, it ∈ items := by
  induction items generalizing items2 with
  | nil => simp [removeFirst] at h
  | cons a rest ih =>
    by_cases hpid : (a.ProductID == pid) = true
    · simp only [removeFirst, hpid, if_true, Option.some.injEq] at h
      subst h
      intro it hit
      exact List.mem_cons_of_mem a hit
    · cases hm : removeFirst rest pid with
      | some rest2 =>
        simp only [removeFirst, hpid, Bool.false_eq_true, if_false, hm, Option.some.injEq] at h
        subst h
        intro it hit
        rcases List.mem_cons.mp hit with h1 | h2
        · subst h1
          exact List.mem_cons_self it rest
        · exact List.mem_cons_of_mem a (ih rest2 hm it h2)
      | none => simp [removeFirst, hpid, hm] at h

theorem updateFirst_consistent (items : List OrderItem) (pid : Nat) (qty : Int)
    (items2 : List OrderItem) (h : updateFirst items pid qty = some items2)
    (hc : ∀ it ∈ items, itemPriceConsistent it) :
    ∀ it ∈ items2, itemPriceConsistent it := by
  induction items generalizing items2 with
  | nil => simp [updateFirst] at h
  | cons a rest ih =>
    by_cases hpid : (a.ProductID == pid) = true
    · simp only [updateFirst, hpid, if_true, Option.some.injEq] at h
      subst h
      intro it hit
      rcases List.mem_cons.mp hit with h1 | h2
      · subst h1
        rfl
      · exact hc it (List.mem_cons_of_mem a h2)
    · cases hm : updateFirst rest pid qty with
      | some rest2 =>
        simp only [updateFirst, hpid, Bool.false_eq_true, if_false, hm, Option.some.injEq] at h
        subst h
        intro it hit
        rcases List.mem_cons.mp hit with h1 | h2
        · subst h1
          exact hc it (List.mem_cons_self it rest)
        · exact ih rest2 hm (fun x hx => hc x (List.mem_cons_of_mem a hx)) it h2
      | none => simp [updateFirst, hpid, hm] at h

theorem invariant_mk (o : Order) (L : List OrderItem) (now : Nat)
    (hc : ∀ it ∈ L, itemPriceConsistent it) :
    orderTotalsInvariant
      { o with Items := L, TotalAmount := totalOfItems L, UpdatedAt := now } :=
  ⟨rfl, hc⟩

theorem applyOp_preserves_invariant (o : Order) (op : OrderOp)
    (hinv : orderTotalsInvariant o) : orderTotalsInvariant (applyOp o op).1 := by
  obtain ⟨htot, hc⟩ := hinv
  cases op with
  | addItem pid sku name qty price now =>
    cases himm : isImmutable o with
    | true =>
      simp only [applyOp, AddItem, himm, if_true]
      exact ⟨htot, hc⟩
    | false =>
      cases hv : validateOrderItem pid sku name qty price with
      | some e =>
        simp [applyOp, AddItem, himm, hv]
        exact ⟨htot, hc⟩
      | none =>
        cases hm : mergeExisting o.Items pid qty with
        | some items2 =>
          simp only [applyOp, AddItem, himm, hv, hm, Bool.false_eq_true, if_false]
          exact invariant_mk o items2 now
            (mergeExisting_consistent o.Items pid qty items2 hm hc)
        | none =>
          simp only [applyOp, AddItem, himm, hv, hm, Bool.false_eq_true, if_false]
          refine invariant_mk o _ now fun it hit => ?_
          rcases List.mem_append.mp hit with h1 | h2
          · exact hc it h1
          · rcases List.mem_singleton.mp h2 with rfl
            rfl
  | removeItem pid now =>
    cases himm : isImmutable o with
    | true =>
      simp only [applyOp, RemoveItem, himm, if_true]
      exact ⟨htot, hc⟩
    | false =>
      cases hr : removeFirst o.Items pid with
      | some items2 =>
        simp only [applyOp, RemoveItem, himm, hr, Bool.false_eq_true, if_false]
        exact invariant_mk o items2 now
          fun it hit => hc it (removeFirst_mem o.Items pid items2 hr it hit)
      | none =>
        simp [applyOp, RemoveItem, himm, hr]
        exact ⟨htot, hc⟩
  | updateItemQuantity pid qty now =>
    cases himm : isImmutable o with
    | true =>
      simp only [applyOp, UpdateItemQuantity, himm, if_true]
      exact ⟨htot, hc⟩
    | false =>
      by_cases hq : qty ≤ 0
      · simp [applyOp, UpdateItemQuantity, himm, hq]
        exact ⟨htot, hc⟩
      · cases hu : updateFirst o.Items pid qty with
        | some items2 =>
          simp only [applyOp, UpdateItemQuantity, himm, hq, hu, Bool.false_eq_true,
            if_false, if_neg]
          exact invariant_mk o items2 now
            (updateFirst_consistent o.Items pid qty items2 hu hc)
        | none =>
          simp [applyOp, UpdateItemQuantity, himm, hq, hu]
          exact ⟨htot, hc⟩
  | calculateTotal => exact ⟨rfl, hc⟩
  | confirmOrder now =>
    cases hs : o.Status != OrderStatusPending with
    | true =>
      simp [applyOp, ConfirmOrder, hs]
      exact ⟨htot, hc⟩
    | false =>
      cases he : o.Items.length == 0 with
      | true =>
        simp [applyOp, ConfirmOrder, hs, he]
        exact ⟨htot, hc⟩
      | false =>
        simp [applyOp, ConfirmOrder, hs, he]
        exact ⟨htot, hc⟩
  | cancelOrder now =>
    cases hcan : CanBeCancelled o with
    | true =>
      simp [applyOp, CancelOrder, hcan]
      exact ⟨htot, hc⟩
    | false =>
      simp [applyOp, CancelOrder, hcan]
      exact ⟨htot, hc⟩
  | transitionToProcessing now =>
    cases hs : o.Status != OrderStatusConfirmed with
    | true =>
      simp [applyOp, TransitionToProcessing, hs]
      exact ⟨htot, hc⟩
    | false =>
      simp [applyOp, TransitionToProcessing, hs]
      exact ⟨htot, hc⟩
  | transitionToShipped now =>
    cases hs : o.Status != OrderStatusProcessing with
    | true =>
      simp [applyOp, TransitionToShipped, hs]
      exact ⟨htot, hc⟩
    | false =>
      simp [applyOp, TransitionToShipped, hs]
      exact ⟨htot, hc⟩
  | transitionToDelivered now =>
    cases hs : o.Status != OrderStatusShipped with
    | true =>
      simp [applyOp, TransitionToDelivered, hs]
      exact ⟨htot, hc⟩
    | false =>
      simp [applyOp, TransitionToDelivered, hs]
      exact ⟨htot, hc⟩
  | transitionToRefunded now =>
    cases hs : o.Status != OrderStatusDelivered with
    | true =>
      simp [applyOp, TransitionToRefunded, hs]
      exact ⟨htot, hc⟩
    | false =>
      simp [applyOp, TransitionToRefunded, hs]
      exact ⟨htot, hc⟩

theorem applyOps_cons (o : Order) (op : OrderOp) (rest : List OrderOp) :
    applyOps o (op :: rest) = applyOps (applyOp o op).1 rest :=
  rfl

theorem applyOps_preserves_invariant (ops : List OrderOp) :
    ∀ o : Order, orderTotalsInvariant o → orderTotalsInvariant (applyOps o ops) := by
  induction ops with
  | nil => exact fun o h => h
  | cons op rest ih =>
    intro o h
    rw [applyOps_cons]
    exact ih (applyOp o op).1 (applyOp_preserves_invariant o op h)

/-- C1: for every order created by NewOrder and every sequence of aggregate
operations (item mutations, total recomputation and all status transitions),
after each operation — succeeding or failing — the order's TotalAmount equals
the sum of its items' TotalPrice and every item's TotalPrice equals its
quantity times its unit price. -/
theorem totals_invariant_reachable (customerID now0 : Nat) (o0 : Order)
    (hnew : NewOrder customerID now0 = .ok o0) (ops : List OrderOp) :
    orderTotalsInvariant (applyOps o0 ops) := by
  have h0 : orderTotalsInvariant o0 := by
    unfold NewOrder at hnew
    split at hnew
    · exact Except.noConfusion hnew
    · cases hnew
      exact ⟨rfl, by simp⟩
  exact applyOps_preserves_invariant ops o0 h0

/-- Witness for C1: after creating an order and adding one item, the invariant
holds on the resulting concrete order. -/
theorem totals_invariant_reachable_witness :
    orderTotalsInvariant
      (applyOps cNewOrder [OrderOp.addItem 1 ("P-1") ("Widget") 2 10 3]) :=
  totals_invariant_reachable 1 0 cNewOrder rfl
    [OrderOp.addItem 1 ("P-1") ("Widget") 2 10 3]

end OrdersService
